import Mathlib

/-!
# Shallow embedding of the SORA API client (`sora_api.py`, `node_sora_jobs.py`)

This file embeds the job-submission / polling / result-resolution client of the
repository in Lean and proves properties of it.

Modelling conventions:
* Python `dict` response envelopes are a structure of `Option` fields; `none`
  models both a missing key and a key set to `None` (the source reads every
  field with `.get`, which cannot distinguish the two).
* Bytes are `List Nat`; JSON values are the tagged union `JsonVal`.
* External effects are oracle parameters: the outcome of an HTTP exchange is an
  `Except String HttpResp` value (`.error msg` models a raised
  `requests.RequestException`, `.ok r` a received response), `json.loads` and
  `base64.b64decode` are function parameters returning `Except`, and the
  filesystem of `save_bytes_to_tempfile` is an explicit association list.
* The polling loop of `GetVideoJobStatus.call` runs on a fuel bound (the real
  loop is unbounded; every theorem supplies enough fuel that the bound is never
  the reason the loop stops).  Wall-clock readings `time.time() - start` are an
  explicit sequence `e : Nat -> Rat` giving the elapsed time observed at each
  iteration's timeout check.
-/

namespace SoraSpec

/-- Arbitrary JSON value, as produced by `json.loads` / `resp.json()`. -/
inductive JsonVal where
  | null : JsonVal
  | bool (b : Bool) : JsonVal
  | num (n : Int) : JsonVal
  | str (s : String) : JsonVal
  | arr (xs : List JsonVal) : JsonVal
  | obj (fields : List (String × JsonVal)) : JsonVal

/-- Python `j.get(k)` on a JSON mapping.  Defined (as `none`) on non-mappings
too; the source would raise `AttributeError` there, a case no claim exercises. -/
def jget (j : JsonVal) (k : String) : Option JsonVal :=
  match j with
  | .obj fields =>
      match fields.find? (fun p => p.1 = k) with
      | some p => some p.2
      | none => none
  | _ => none

/-- Python truthiness of a JSON value (`or {}` tests). -/
def pyTruthy : JsonVal → Bool
  | .null => false
  | .bool b => b
  | .num n => n != 0
  | .str s => s ≠ ""
  | .arr xs => ¬ xs.isEmpty
  | .obj fields => ¬ fields.isEmpty

/-- A received HTTP response, as seen through the `requests` library:
`jsonVal` is what `resp.json()` would return (`none` when it raises). -/
structure HttpResp where
  status_code : Int
  ok : Bool
  headers : List (String × String)
  text : String
  raw : List Nat
  jsonVal : Option JsonVal

/-- The normalized response envelope every transport call returns
(`sora_api.py`).  `none` fields model keys that are absent or `None`. -/
structure Envelope where
  status_code : Option Int := none
  ok : Bool := false
  headers : Option (List (String × String)) := none
  text : String := ""
  json : Option JsonVal := none
  raw : Option (List Nat) := none
  error : Option String := none

/-- Test `pyStartsWithL s pre`: does the character list `s` start with `pre`?
(Python `str.startswith`, by structural recursion so that proofs can
evaluate it.) -/
def pyStartsWithL : List Char → List Char → Bool
  | _, [] => true
  | [], _ :: _ => false
  | c :: cs, p :: ps => c = p && pyStartsWithL cs ps

/-- Python `s.startswith(pre)`. -/
def pyStartsWith (s pre : String) : Bool :=
  pyStartsWithL s.toList pre.toList

/-- The whitespace characters stripped by Python `str.strip` (ASCII cases). -/
def pyWhitespace (c : Char) : Bool :=
  c = ' ' || c = '\t' || c = '\n' || c = '\r'

/-- Python `s.strip()`: drop surrounding whitespace. -/
def pyStrip (s : String) : String :=
  String.mk (((s.toList.dropWhile pyWhitespace).reverse.dropWhile pyWhitespace).reverse)

/-- Python `str.lower` on one character (ASCII case). -/
def pyLowerChar (c : Char) : Char :=
  if 'A' ≤ c && c ≤ 'Z' then Char.ofNat (c.toNat + 32) else c

/-- Python `s.lower()`. -/
def pyLower (s : String) : String :=
  String.mk (s.toList.map pyLowerChar)

def pyInL (sub : List Char) : List Char → Bool
  | [] => sub.isEmpty
  | c :: cs => pyStartsWithL (c :: cs) sub || pyInL sub cs

/-- Python `sub in s` substring test. -/
def pyIn (sub s : String) : Bool :=
  pyInL sub.toList s.toList

/-- Python `headers.get(k, dflt)`. -/
def headerGet (hs : List (String × String)) (k : String) (dflt : String) : String :=
  match hs.find? (fun p => p.1 = k) with
  | some p => p.2
  | none => dflt

/-- Model of `SoraAPIClient._build_response`: normalize a received response.  `json` is
populated iff the content type mentions `application/json` or the stripped body
starts with `\x7b`, and `resp.json()` parses (`r.jsonVal` is `some`). -/
def build_response (r : HttpResp) : Envelope :=
  let ct := headerGet r.headers "Content-Type" ""
  let wantJson := pyIn "application/json" ct || (r.text ≠ "" && pyStartsWith (pyStrip r.text) "\x7b")
  { status_code := some r.status_code
    ok := r.ok
    headers := some r.headers
    text := r.text
    json := if wantJson then r.jsonVal else none
    raw := some r.raw }

/-- Model of `SoraAPIClient.get_job`: issue the GET (outcome supplied by the oracle
`outcome`) and normalize.  A raised `requests.RequestException` becomes the
failure envelope of line 122 of `sora_api.py`. -/
def SoraAPIClient.get_job (outcome : Except String HttpResp) : Envelope :=
  match outcome with
  | .error e => { status_code := none, ok := false, error := some e, json := none, text := "" }
  | .ok r => build_response r

/-- Model of `SoraAPIClient.download_url`: like `get_job` but the success envelope's
`raw` is overwritten with the full body bytes (line 137 of `sora_api.py`). -/
def SoraAPIClient.download_url (outcome : Except String HttpResp) : Envelope :=
  match outcome with
  | .error e =>
      { status_code := none, ok := false, error := some e, json := none, text := "", raw := none }
  | .ok r => { build_response r with raw := some r.raw }

/-- Ghost record for `SoraAPIClient.create_video_job`: whether a local file
handle was opened, whether it was closed again, and whether the HTTP request
was attempted (`requests.post` reached). -/
structure CreateGhost where
  opened : Bool
  closed : Bool
  requested : Bool

/-- The tail of `create_video_job` after the `files` dict is built: attempt the
POST (outcome supplied by the oracle), closing the opened handle — if any — on
both the exception path and the response path. -/
def finishPost (post : Except String HttpResp) (opened : Bool) : Envelope × CreateGhost :=
  match post with
  | .error e =>
      ({ status_code := none, ok := false, error := some e, json := none, text := "" },
       { opened := opened, closed := opened, requested := true })
  | .ok r => (build_response r, { opened := opened, closed := opened, requested := true })

/-- Model of `SoraAPIClient.create_video_job`.  `fileOk` models `os.path.exists
image_path`; the multipart payload (prompt/model/trim/extra form fields) only
shapes the request consumed by the `post` oracle and does not affect the
returned envelope, so it is not materialized here.  Bytes take priority over a
path; a nonexistent path is a local validation failure returned without
attempting the request. -/
def SoraAPIClient.create_video_job (fileOk : Bool) (post : Except String HttpResp)
    (image_path : Option String) (image_bytes : Option (List Nat)) :
    Envelope × CreateGhost :=
  match image_bytes, image_path with
  | some _, _ => finishPost post false
  | none, some p =>
      if p ≠ "" then
        if fileOk then finishPost post true
        else
          ({ status_code := none, ok := false, error := some ("file not found: " ++ p) },
           { opened := false, closed := false, requested := false })
      else finishPost post false
  | none, none => finishPost post false

/-- The fixed terminal set of `is_done_status` (`sora_api.py` line 29). -/
def done_states : List String := ["succeeded", "completed", "finished", "done", "success"]

/-- Model of `is_done_status`: falsy input is not done; otherwise strip surrounding
whitespace, lowercase, and test membership in the fixed terminal set. -/
def is_done_status (status : String) : Bool :=
  if status = "" then false
  else done_states.contains (pyLower (pyStrip status))

/-- The filesystem of `save_bytes_to_tempfile`: path → content. -/
abbrev FS := List (String × List Nat)

def fsSet (fs : FS) (p : String) (content : List Nat) : FS :=
  (p, content) :: fs.filter (fun e => e.1 ≠ p)

def fsRemove (fs : FS) (p : String) : FS :=
  fs.filter (fun e => e.1 ≠ p)

def fsGet (fs : FS) (p : String) : Option (List Nat) :=
  (fs.find? (fun e => e.1 = p)).map (fun e => e.2)

/-- Model of `save_bytes_to_tempfile`.  `path` is the fresh path handed out by
`tempfile.mkstemp` (which creates an empty file there); `closeOk`, `writeOk`
and `removeOk` are the outcomes of `os.close`, the `open`/`write` block and
`os.remove`; `leftover` is whatever an interrupted write left in the file.
On an exception the source tries to `os.remove` the temp file, swallows a
failure of the removal itself, and re-raises (`.error ()`). -/
def save_bytes_to_tempfile (fs : FS) (path : String)
    (closeOk writeOk removeOk : Bool) (leftover : List Nat)
    (bytes_data : List Nat) : FS × Except Unit String :=
  let fs1 := fsSet fs path []
  if closeOk then
    if writeOk then
      (fsSet fs1 path bytes_data, .ok path)
    else
      let fs2 := fsSet fs1 path leftover
      (if removeOk then fsRemove fs2 path else fs2, .error ())
  else
    (if removeOk then fsRemove fs1 path else fs1, .error ())

/-- Python `resp.get("json") or` empty dict (`node_sora_jobs.py`): a missing or falsy JSON
value becomes the empty mapping. -/
def jsonOrEmpty (resp : Envelope) : JsonVal :=
  match resp.json with
  | some v => if pyTruthy v then v else .obj []
  | none => .obj []

/-- First key whose value is a nonempty string (`status`/`state` probe of
`GetVideoJobStatus.call`). -/
def statusFromKeys (j : JsonVal) : List String → Option String
  | [] => none
  | k :: ks =>
      match jget j k with
      | some (.str s) => if s ≠ "" then some s else statusFromKeys j ks
      | _ => statusFromKeys j ks

/-- Status extraction of `GetVideoJobStatus.call` (lines 128-136): probe
`status` then `state`; otherwise fall back to `resp.get("text") or ""`. -/
def extractStatus (resp : Envelope) : String :=
  match statusFromKeys (jsonOrEmpty resp) ["status", "state"] with
  | some s => s
  | none => resp.text

/-- Job-id extraction of `CreateVideoJob.call` (lines 79-86): first of
`id`, `video_id`, `job_id`, `task_id` holding a nonempty string. -/
def jobIdFromKeys (j : JsonVal) : List String → String
  | [] => ""
  | k :: ks =>
      match jget j k with
      | some (.str s) => if s ≠ "" then s else jobIdFromKeys j ks
      | _ => jobIdFromKeys j ks

/-- The amount `time.sleep` is given between polling attempts:
`max(0.5, poll_interval)` (line 144 of `node_sora_jobs.py`). -/
def sleepAmount (poll_interval : Int) : ℚ :=
  max (1/2 : ℚ) (poll_interval : ℚ)

/-- The `while True` polling loop of `GetVideoJobStatus.call` (`poll=true`
branch).  `responses` gives the envelope of the i-th `get_job` call, `e i` the
elapsed wall-clock reading `time.time() - start` at the i-th timeout check.
The result's third component counts the `get_job` requests issued (returning
with count `n + 1` from start index 0 means `n` sleeps were executed, since the
loop sleeps exactly once at the end of every non-returning iteration).  The
fuel argument only makes the function total; theorems always provide enough. -/
def pollLoop (responses : Nat → Envelope) (e : Nat → ℚ) (poll_timeout : ℚ) :
    Nat → Nat → Option (Envelope × String × Nat)
  | _, 0 => none
  | i, fuel + 1 =>
      let resp := responses i
      let status := extractStatus resp
      if is_done_status status then some (resp, status, i + 1)
      else if poll_timeout ≤ e i then some (resp, status, i + 1)
      else pollLoop responses e poll_timeout (i + 1) fuel

/-- Model of `GetVideoJobStatus.call`: single-shot mode issues one `get_job` call and
returns its envelope and status; polling mode runs the loop. -/
def GetVideoJobStatus.call (responses : Nat → Envelope) (e : Nat → ℚ)
    (poll : Bool) (poll_timeout : ℚ) (fuel : Nat) :
    Option (Envelope × String × Nat) :=
  if poll then pollLoop responses e poll_timeout 0 fuel
  else some (responses 0, extractStatus (responses 0), 1)

/-- Everything after the first `,` of a character list, `none` when there is
no comma (Python `s.split(",", 1)[1]`, which raises `IndexError` when the
comma is missing). -/
def afterComma : List Char → Option (List Char)
  | [] => none
  | c :: cs => if c = ',' then some cs else afterComma cs

/-- The data-URI stripping step of `CreateVideoJob.call` (lines 59-64): when
the payload starts with `data:`, keep only what follows the first comma; the
`IndexError` of a comma-less payload is swallowed (`except: pass`), leaving the
string unchanged. -/
def stripDataUri (b64 : String) : String :=
  if pyStartsWith b64 "data:" then
    match afterComma b64.toList with
    | some rest => String.mk rest
    | none => b64
  else b64

/-- The image-decoding step of `CreateVideoJob.call` (lines 57-68): empty
input means no image; otherwise strip a data-URI header and hand the result to
the Base64 decoder `dec` (oracle for `base64.b64decode`); a decode exception
is returned as `.error`. -/
def imageBytesOf (dec : String → Except String (List Nat)) (image_base64 : String) :
    Except String (Option (List Nat)) :=
  if image_base64 = "" then .ok none
  else
    match dec (stripDataUri image_base64) with
    | .ok b => .ok (some b)
    | .error e => .error e

/-- Model of `CreateVideoJob.call` (`node_sora_jobs.py` lines 34-87).  `parse` is the
oracle for `json.loads` on the extra-fields string (yielding the string-field
mapping the node forwards), `dec` the oracle for `base64.b64decode`, `fileOk`
models `os.path.exists file_path`, and `post` the outcome of `requests.post`.
Returns the (envelope, job_id) pair together with the create ghost; a ghost
with `requested = false` means no HTTP request was issued. -/
def CreateVideoJob.call (parse : String → Except String (List (String × String)))
    (dec : String → Except String (List Nat)) (fileOk : Bool)
    (post : Except String HttpResp)
    (file_path image_base64 extra_fields_json : String) :
    (Envelope × String) × CreateGhost :=
  match (if extra_fields_json = "" then .ok [] else parse extra_fields_json :
      Except String (List (String × String))) with
  | .error e =>
      (({ ok := false, error := some ("extra_fields_json parse error: " ++ e) }, ""),
       { opened := false, closed := false, requested := false })
  | .ok _extra =>
      match imageBytesOf dec image_base64 with
      | .error e =>
          (({ ok := false, error := some ("image_base64 decode error: " ++ e) }, ""),
           { opened := false, closed := false, requested := false })
      | .ok image_bytes =>
          let path_arg : Option String :=
            if (match image_bytes with | none => true | some b => b.isEmpty) &&
                file_path ≠ "" then
              some file_path
            else none
          let out := SoraAPIClient.create_video_job fileOk post path_arg image_bytes
          ((out.1, jobIdFromKeys (jsonOrEmpty out.1) ["id", "video_id", "job_id", "task_id"]),
           out.2)

/-- Python `dl.get("raw") or` empty bytes: the body bytes of a download envelope, empty when
missing. -/
def rawBytes (e : Envelope) : List Nat :=
  match e.raw with
  | some r => r
  | none => []

/-- One iteration of the URL-probing loops of `DownloadVideoResult.call`
(lines 204-213, 229-238, 241-250): if key `k` holds a string starting with
`http`, download it; on a successful download save the bytes and return the
path; a save exception is swallowed (`except: pass`) and the probe reports no
match so the loop moves on. -/
def tryDownloadKey (dlOutcome : String → Except String HttpResp)
    (save : List Nat → Except String String)
    (resp : Envelope) (j : JsonVal) (k : String) : Option (Envelope × String) :=
  match jget j k with
  | some (.str v) =>
      if pyStartsWith v "http" then
        let dl := SoraAPIClient.download_url (dlOutcome v)
        if dl.ok then
          match save (rawBytes dl) with
          | .ok p => some (resp, p)
          | .error _ => none
        else none
      else none
  | _ => none

def tryDownloadKeys (dlOutcome : String → Except String HttpResp)
    (save : List Nat → Except String String)
    (resp : Envelope) (j : JsonVal) : List String → Option (Envelope × String)
  | [] => none
  | k :: ks =>
      match tryDownloadKey dlOutcome save resp j k with
      | some out => some out
      | none => tryDownloadKeys dlOutcome save resp j ks

/-- One iteration of the Base64-probing loop (lines 215-223): if key `k` holds
a string longer than 100 characters, decode and save it; a decode or save
exception is swallowed and the loop moves on. -/
def tryB64Key (dec : String → Except String (List Nat))
    (save : List Nat → Except String String)
    (resp : Envelope) (j : JsonVal) (k : String) : Option (Envelope × String) :=
  match jget j k with
  | some (.str v) =>
      if v.length > 100 then
        match dec v with
        | .ok b =>
            match save b with
            | .ok p => some (resp, p)
            | .error _ => none
        | .error _ => none
      else none
  | _ => none

def tryB64Keys (dec : String → Except String (List Nat))
    (save : List Nat → Except String String)
    (resp : Envelope) (j : JsonVal) : List String → Option (Envelope × String)
  | [] => none
  | k :: ks =>
      match tryB64Key dec save resp j k with
      | some out => some out
      | none => tryB64Keys dec save resp j ks

/-- The explicit `download_field` strategy (lines 185-201).  In its URL
sub-branch a save exception does NOT fall through: the source returns
`(resp, "")` right there (line 194).  When the URL sub-branch does not return,
the same value is re-examined by the length-over-100 Base64 sub-branch, whose
exceptions are swallowed (`except: pass`). -/
def downloadFieldStep (dlOutcome : String → Except String HttpResp)
    (dec : String → Except String (List Nat))
    (save : List Nat → Except String String)
    (resp : Envelope) (j : JsonVal) (download_field : String) :
    Option (Envelope × String) :=
  if download_field = "" then none
  else
    let v := jget j download_field
    let urlStep : Option (Envelope × String) :=
      match v with
      | some (.str s) =>
          if pyStartsWith s "http" then
            let dl := SoraAPIClient.download_url (dlOutcome s)
            if dl.ok then
              match save (rawBytes dl) with
              | .ok p => some (resp, p)
              | .error _ => some (resp, "")
            else none
          else none
      | _ => none
    match urlStep with
    | some out => some out
    | none =>
        match v with
        | some (.str s) =>
            if s.length > 100 then
              match dec s with
              | .ok b =>
                  match save b with
                  | .ok p => some (resp, p)
                  | .error _ => none
              | .error _ => none
            else none
        | _ => none

/-- Strategy 4 (lines 226-238): nonempty `outputs` list whose first element is
a mapping, probed with `url`, `download_url`, `video_url`. -/
def outputsStep (dlOutcome : String → Except String HttpResp)
    (save : List Nat → Except String String)
    (resp : Envelope) (j : JsonVal) : Option (Envelope × String) :=
  match jget j "outputs" with
  | some (.arr (first :: _)) =>
      match first with
      | .obj fields =>
          tryDownloadKeys dlOutcome save resp (.obj fields) ["url", "download_url", "video_url"]
      | _ => none
  | _ => none

/-- Strategy 5 (lines 240-250): a `result` mapping probed with `url`,
`video_url`, `download_url`. -/
def resultStep (dlOutcome : String → Except String HttpResp)
    (save : List Nat → Except String String)
    (resp : Envelope) (j : JsonVal) : Option (Envelope × String) :=
  match jget j "result" with
  | some (.obj fields) =>
      tryDownloadKeys dlOutcome save resp (.obj fields) ["url", "video_url", "download_url"]
  | _ => none

/-- Strategy 6 (lines 253-260): when the status response itself carries a
`video*` content type and a nonempty body, save the raw body; a save exception
is swallowed. -/
def rawVideoStep (save : List Nat → Except String String)
    (resp : Envelope) : Option (Envelope × String) :=
  let ct := headerGet (match resp.headers with | some hs => hs | none => []) "Content-Type" ""
  match resp.raw with
  | some r =>
      if ¬ r.isEmpty && pyStartsWith ct "video" then
        match save r with
        | .ok p => some (resp, p)
        | .error _ => none
      else none
  | none => none

/-- Model of `DownloadVideoResult.call` (`node_sora_jobs.py` lines 170-262): fetch the
job, then run the resolution strategies in order; when none produces a path,
return the envelope with the empty saved path. -/
def DownloadVideoResult.call (getOutcome : Except String HttpResp)
    (dlOutcome : String → Except String HttpResp)
    (dec : String → Except String (List Nat))
    (save : List Nat → Except String String)
    (download_field : String) : Envelope × String :=
  let resp := SoraAPIClient.get_job getOutcome
  let j := jsonOrEmpty resp
  match downloadFieldStep dlOutcome dec save resp j download_field with
  | some out => out
  | none =>
  match tryDownloadKeys dlOutcome save resp j ["video_url", "url", "download_url", "video"] with
  | some out => out
  | none =>
  match tryB64Keys dec save resp j ["video_base64", "video_b64", "b64"] with
  | some out => out
  | none =>
  match outputsStep dlOutcome save resp j with
  | some out => out
  | none =>
  match resultStep dlOutcome save resp j with
  | some out => out
  | none =>
  match rawVideoStep save resp with
  | some out => out
  | none => (resp, "")

/-- The envelope invariant of the spec (section 3): the `error` field is set
exactly when `status_code` is absent; a failure envelope carries none of the
success-shape fields; a success envelope carries status, headers and raw and
no error. -/
def envelopeInvariant (e : Envelope) : Prop :=
  (e.error.isSome ↔ e.status_code = none) ∧
  (e.error.isSome → e.headers = none ∧ e.raw = none ∧ e.json = none ∧ e.text = "") ∧
  (e.status_code.isSome → e.error = none ∧ e.headers.isSome ∧ e.raw.isSome)

/-! ### Concrete fixtures used by witnesses and counterexamples -/

/-- A status envelope whose body is the bare text `running` (no JSON). -/
def runningEnv : Envelope := { text := "running" }

/-- A status envelope whose body is the bare text `done`. -/
def doneTextEnv : Envelope := { text := "done" }

/-- The envelope `get_job` builds when `requests.get` raises. -/
def failEnvC1 : Envelope := SoraAPIClient.get_job (.error "connection refused")

/-- A JSON status response reporting `succeeded`. -/
def doneRespC1 : HttpResp :=
  { status_code := 200, ok := true, headers := [("Content-Type", "application/json")],
    text := "", raw := [], jsonVal := some (.obj [("status", .str "succeeded")]) }

def succEnvC1 : Envelope := SoraAPIClient.get_job (.ok doneRespC1)

/-- A `get_job` stream whose first call fails at the transport level and whose
second call reports a terminal status. -/
def responsesC1 : Nat → Envelope := fun i => if i = 0 then failEnvC1 else succEnvC1

/-- An http URL longer than 100 characters. -/
def longUrlC2 : String :=
  "http://a.example/0123456789012345678901234567890123456789012345678901234567890123456789012345678901234567890123456789"

/-- A job JSON carrying the explicit download field and a fallback
`video_url`. -/
def jC2 : JsonVal :=
  .obj [("fld", .str longUrlC2), ("video_url", .str "http://b.example/v.mp4")]

def getRespC2 : HttpResp :=
  { status_code := 200, ok := true, headers := [("Content-Type", "application/json")],
    text := "", raw := [], jsonVal := some jC2 }

/-- Download oracle: the explicit field's URL yields body `[1]`, any other URL
body `[2]`. -/
def dlC2 : String → Except String HttpResp := fun u =>
  if u = longUrlC2 then
    .ok { status_code := 200, ok := true, headers := [], text := "", raw := [1], jsonVal := none }
  else
    .ok { status_code := 200, ok := true, headers := [], text := "", raw := [2], jsonVal := none }

/-- Base64 decode oracle that always raises (URLs are not valid Base64). -/
def decC2 : String → Except String (List Nat) := fun _ => .error "invalid base64"

/-- Save oracle: saving the bytes `[1]` raises, any other bytes succeed. -/
def saveC2 : List Nat → Except String String := fun b =>
  if b = [1] then .error "disk full" else .ok "/tmp/sora_ok.mp4"

/-- Trivial Base64 decode oracle for witnesses. -/
def decW : String → Except String (List Nat) := fun _ => .ok []

/-! ## Theorems -/

/-- C10: for every polling-mode status request with `poll_timeout ≤ 0`,
`GetVideoJobStatus` issues exactly one `get_job` request (the request counter
of the result is 1, so no sleep was executed either) and returns its envelope
and extracted status, whether or not the observed status is terminal. -/
theorem getVideoJobStatus_nonpositive_timeout
    (responses : Nat → Envelope) (e : Nat → ℚ) (t : ℚ) (fuel : Nat)
    (ht : t ≤ 0) (he : 0 ≤ e 0) :
    GetVideoJobStatus.call responses e true t (fuel + 1) =
      some (responses 0, extractStatus (responses 0), 1) := by
  have h0 : t ≤ e 0 := le_trans ht he
  by_cases hd : is_done_status (extractStatus (responses 0))
  · simp [GetVideoJobStatus.call, pollLoop, hd]
  · simp [GetVideoJobStatus.call, pollLoop, hd, h0]

/-- Witness for C10: a single non-terminal response with `poll_timeout = 0`. -/
theorem getVideoJobStatus_nonpositive_timeout_witness :
    GetVideoJobStatus.call (fun _ => runningEnv) (fun _ => 0) true 0 5 =
      some (runningEnv, extractStatus runningEnv, 1) :=
  getVideoJobStatus_nonpositive_timeout (fun _ => runningEnv) (fun _ => 0) 0 4
    le_rfl le_rfl

/-- C5 counterexample: `is_done_status " FINISHED "` is `true` although the
case-insensitive (lowercased) form of `" FINISHED "` is not an element of the
fixed terminal set — the source also strips surrounding whitespace, so "for
every status string outside that set, is_done_status returns false" fails at
this input. -/
theorem is_done_status_counterexample :
    is_done_status " FINISHED " = true ∧
    done_states.contains (pyLower " FINISHED ") = false := by
  exact ⟨rfl, rfl⟩

/-- C5 (amended): `is_done_status` matches the fixed terminal set after
stripping surrounding whitespace AND lowercasing (it returns `true` exactly
when the stripped, lowercased form is in the set); each element of the listed
test set is terminal; and the polling loop returns as soon as its very first
observation is terminal, with exactly one request issued and no sleep. -/
theorem is_done_status_strip_fold_and_first_return :
    (∀ s : String, is_done_status s = done_states.contains (pyLower (pyStrip s))) ∧
    (["succeeded", "Completed", " FINISHED ", "done", "Success"].all is_done_status = true) ∧
    (∀ (responses : Nat → Envelope) (e : Nat → ℚ) (t : ℚ) (fuel : Nat),
      is_done_status (extractStatus (responses 0)) = true →
      GetVideoJobStatus.call responses e true t (fuel + 1) =
        some (responses 0, extractStatus (responses 0), 1)) := by
  refine ⟨?_, by decide, ?_⟩
  · intro s
    by_cases h : s = ""
    · subst h; decide
    · simp [is_done_status, h]
  · intro responses e t fuel h
    simp [GetVideoJobStatus.call, pollLoop, h]

/-- Witness for C5: a first observation of `done` ends polling at once. -/
theorem is_done_status_strip_fold_and_first_return_witness :
    GetVideoJobStatus.call (fun _ => doneTextEnv) (fun _ => 0) true 120 1 =
      some (doneTextEnv, extractStatus doneTextEnv, 1) :=
  is_done_status_strip_fold_and_first_return.2.2 (fun _ => doneTextEnv)
    (fun _ => 0) 120 0 rfl

/-- C6: when `create_video_job` opens a local file for multipart upload
(image path given and existing, no image bytes), the handle is opened and is
closed again on every exit path — the quantification over `post` covers a
successful response, a response with an HTTP-level error status, and a raised
transport exception. -/
theorem create_video_job_closes_file_handle
    (post : Except String HttpResp) (p : String) (hp : p ≠ "") :
    (SoraAPIClient.create_video_job true post (some p) none).2.opened = true ∧
    (SoraAPIClient.create_video_job true post (some p) none).2.closed = true := by
  cases post <;> simp [SoraAPIClient.create_video_job, hp, finishPost]

/-- Witness for C6: a transport exception on an existing local file. -/
theorem create_video_job_closes_file_handle_witness :
    (SoraAPIClient.create_video_job true (.error "timeout") (some "/img.png") none).2.opened = true ∧
    (SoraAPIClient.create_video_job true (.error "timeout") (some "/img.png") none).2.closed = true :=
  create_video_job_closes_file_handle (.error "timeout") "/img.png" (by decide)

/-- C3: a nonempty `extra_fields_json` string that fails to parse makes
`CreateVideoJob.call` return the failure marker with the parse message and an
empty job id, with `requested = false`: no HTTP request was issued. -/
theorem createVideoJob_bad_extra_fields
    (parse : String → Except String (List (String × String)))
    (dec : String → Except String (List Nat)) (fileOk : Bool)
    (post : Except String HttpResp) (file_path image_base64 : String)
    (extra_fields_json msg : String)
    (hne : extra_fields_json ≠ "") (hp : parse extra_fields_json = .error msg) :
    CreateVideoJob.call parse dec fileOk post file_path image_base64 extra_fields_json =
      (({ ok := false, error := some ("extra_fields_json parse error: " ++ msg) }, ""),
       { opened := false, closed := false, requested := false }) := by
  simp only [CreateVideoJob.call, if_neg hne, hp]

/-- Witness for C3: a parse oracle that rejects the supplied string. -/
theorem createVideoJob_bad_extra_fields_witness :
    CreateVideoJob.call (fun _ => .error "bad json") decW true (.error "net") "" "" "x" =
      (({ ok := false, error := some ("extra_fields_json parse error: " ++ "bad json") }, ""),
       { opened := false, closed := false, requested := false }) :=
  createVideoJob_bad_extra_fields (fun _ => .error "bad json") decW true (.error "net")
    "" "" "x" "bad json" (by decide) rfl

/-- Python `s.split(",", 1)[1]` finds nothing when the string has no comma. -/
theorem afterComma_eq_none (l : List Char) (h : ',' ∉ l) : afterComma l = none := by
  induction l with
  | nil => rfl
  | cons c cs ih =>
      have h1 : c ≠ ',' := fun hc => h (hc ▸ List.mem_cons_self c cs)
      have h2 : ',' ∉ cs := fun hm => h (List.mem_cons_of_mem c hm)
      rw [afterComma, if_neg h1, ih h2]

/-- C9: the data-URI prefix is stripped only when the payload starts with
`data:` and contains a comma.  When it starts with `data:` but has no comma,
the stripping is the identity (the `IndexError` is swallowed) and the image
decoder receives the entire unmodified string; when it does not start with
`data:`, the stripping is the identity as well. -/
theorem dataUri_strip_only_with_comma (s : String)
    (dec : String → Except String (List Nat))
    (h1 : pyStartsWith s "data:" = true) (h2 : ',' ∉ s.toList) :
    stripDataUri s = s ∧
    imageBytesOf dec s = (dec s).map some ∧
    (∀ s2 : String, pyStartsWith s2 "data:" = false → stripDataUri s2 = s2) := by
  have hstrip : stripDataUri s = s := by
    rw [stripDataUri, if_pos h1, afterComma_eq_none s.toList h2]
  refine ⟨hstrip, ?_, ?_⟩
  · have hne : s ≠ "" := by
      intro h
      rw [h] at h1
      exact absurd h1 (by decide)
    rw [imageBytesOf, if_neg hne, hstrip]
    cases dec s <;> rfl
  · intro s2 h
    rw [stripDataUri, if_neg (by rw [h]; exact Bool.false_ne_true)]

/-- Witness for C9: `data:abc` has no comma and is passed through whole. -/
theorem dataUri_strip_only_with_comma_witness :
    stripDataUri "data:abc" = "data:abc" ∧
    imageBytesOf decW "data:abc" = (decW "data:abc").map some ∧
    (∀ s2 : String, pyStartsWith s2 "data:" = false → stripDataUri s2 = s2) :=
  dataUri_strip_only_with_comma "data:abc" decW (by decide) (by decide)

/-- C7: every envelope produced by a transport call — `get_job`,
`download_url`, and `create_video_job` (including its local file-not-found
failure) — satisfies the envelope invariant: the `error` field is set exactly
when `status_code` is absent; a failure envelope carries no success-shape
fields; a success envelope carries status code, headers and raw bytes and no
error. -/
theorem transport_envelope_invariant :
    (∀ o : Except String HttpResp, envelopeInvariant (SoraAPIClient.get_job o)) ∧
    (∀ o : Except String HttpResp, envelopeInvariant (SoraAPIClient.download_url o)) ∧
    (∀ (fileOk : Bool) (post : Except String HttpResp)
        (image_path : Option String) (image_bytes : Option (List Nat)),
      envelopeInvariant (SoraAPIClient.create_video_job fileOk post image_path image_bytes).1) := by
  refine ⟨?_, ?_, ?_⟩
  · intro o
    cases o <;> simp [SoraAPIClient.get_job, build_response, envelopeInvariant]
  · intro o
    cases o <;> simp [SoraAPIClient.download_url, build_response, envelopeInvariant]
  · intro fileOk post image_path image_bytes
    have hfin : ∀ b : Bool, envelopeInvariant (finishPost post b).1 := by
      intro b
      cases post <;> simp [finishPost, build_response, envelopeInvariant]
    rcases image_bytes with _ | bytes
    · rcases image_path with _ | p
      · exact hfin false
      · by_cases hp : p ≠ ""
        · by_cases hf : fileOk
          · simpa [SoraAPIClient.create_video_job, hp, hf] using hfin true
          · simp [SoraAPIClient.create_video_job, hp, hf, envelopeInvariant]
        · simpa [SoraAPIClient.create_video_job, hp] using hfin false
    · exact hfin false

/-- C8 counterexample: when the write fails and the cleanup `os.remove` itself
fails (its exception is swallowed by the inner `except: pass`), the exception
is re-raised but a half-written temp file IS left behind — here with
leftover content `[7]` instead of the requested `[1, 2, 3]`. -/
theorem save_bytes_leftover_counterexample :
    (save_bytes_to_tempfile [] "/tmp/sora_video_a.mp4" true false false [7] [1, 2, 3]).2 =
      .error () ∧
    fsGet (save_bytes_to_tempfile [] "/tmp/sora_video_a.mp4" true false false [7] [1, 2, 3]).1
      "/tmp/sora_video_a.mp4" = some [7] :=
  ⟨rfl, rfl⟩

theorem fsGet_fsSet (fs : FS) (p : String) (c : List Nat) :
    fsGet (fsSet fs p c) p = some c := by
  simp [fsGet, fsSet, List.find?]

theorem fsGet_fsRemove (fs : FS) (p : String) : fsGet (fsRemove fs p) p = none := by
  induction fs with
  | nil => rfl
  | cons e fs ih =>
      by_cases h : e.1 = p
      · have hdrop : fsRemove (e :: fs) p = fsRemove fs p := by
          simp [fsRemove, List.filter_cons, h]
        rw [hdrop]
        exact ih
      · have hkeep : fsRemove (e :: fs) p = e :: fsRemove fs p := by
          simp [fsRemove, List.filter_cons, h]
        rw [hkeep, fsGet, List.find?_cons_of_neg _ (by simp [h])]
        exact ih

/-- C8 (amended): `save_bytes_to_tempfile` either returns the path of the
newly created file holding exactly the given bytes, or re-raises after
ATTEMPTING to remove the temp file, swallowing a failure of the removal
itself; whenever the removal succeeds, no half-written temp file is left
behind. -/
theorem save_bytes_ok_or_attempted_cleanup
    (fs : FS) (path : String) (closeOk writeOk removeOk : Bool)
    (leftover bytes_data : List Nat) :
    ((save_bytes_to_tempfile fs path closeOk writeOk removeOk leftover bytes_data).2 = .ok path →
      fsGet (save_bytes_to_tempfile fs path closeOk writeOk removeOk leftover bytes_data).1 path =
        some bytes_data) ∧
    ((save_bytes_to_tempfile fs path closeOk writeOk removeOk leftover bytes_data).2 = .error () →
      removeOk = true →
      fsGet (save_bytes_to_tempfile fs path closeOk writeOk removeOk leftover bytes_data).1 path =
        none) := by
  cases closeOk <;> cases writeOk <;> cases removeOk <;>
    simp [save_bytes_to_tempfile, fsGet_fsSet, fsGet_fsRemove]

/-- Witness for C8: a run where everything succeeds stores exactly the bytes,
and a failing run with working cleanup leaves nothing behind. -/
theorem save_bytes_ok_or_attempted_cleanup_witness :
    ((save_bytes_to_tempfile [] "/tmp/sora_video_b.mp4" true true true [] [4, 5]).2 =
        .ok "/tmp/sora_video_b.mp4" →
      fsGet (save_bytes_to_tempfile [] "/tmp/sora_video_b.mp4" true true true [] [4, 5]).1
        "/tmp/sora_video_b.mp4" = some [4, 5]) ∧
    ((save_bytes_to_tempfile [] "/tmp/sora_video_b.mp4" true true true [] [4, 5]).2 =
        .error () →
      true = true →
      fsGet (save_bytes_to_tempfile [] "/tmp/sora_video_b.mp4" true true true [] [4, 5]).1
        "/tmp/sora_video_b.mp4" = none) :=
  save_bytes_ok_or_attempted_cleanup [] "/tmp/sora_video_b.mp4" true true true [] [4, 5]

/-- C1 counterexample: with `poll_timeout = 120` and elapsed time still 0, a
transport failure on the first `get_job` call (`failEnvC1`, which carries
`ok = false` and an error message) is NOT returned: the loop issues a second
request and returns the second response (status `succeeded`, request counter
2), so the failure envelope did not end the polling loop. -/
theorem pollLoop_transport_failure_counterexample :
    failEnvC1.error = some "connection refused" ∧ failEnvC1.ok = false ∧
    (GetVideoJobStatus.call responsesC1 (fun _ => 0) true 120 3).map
      (fun r => (r.2.1, r.2.2)) = some ("succeeded", 2) :=
  ⟨rfl, rfl, by decide⟩

/-- C1 (amended): a transport failure during polling is treated like any
non-terminal status rather than being returned immediately: if the poll
timeout has elapsed, the failure envelope is returned (with the empty status
the source extracts from it) as the current result; otherwise the loop sleeps
and retries the request. -/
theorem pollLoop_transport_failure_like_nonterminal
    (responses : Nat → Envelope) (e : Nat → ℚ) (t : ℚ) (msg : String) (i fuel : Nat)
    (hfail : responses i = SoraAPIClient.get_job (.error msg)) :
    (t ≤ e i → pollLoop responses e t i (fuel + 1) = some (responses i, "", i + 1)) ∧
    (e i < t → pollLoop responses e t i (fuel + 2) = pollLoop responses e t (i + 1) (fuel + 1)) := by
  have hstatus : extractStatus (responses i) = "" := by rw [hfail]; rfl
  have hdone : is_done_status (extractStatus (responses i)) = false := by
    rw [hstatus]; rfl
  constructor
  · intro h
    rw [pollLoop, hdone]
    simp only [Bool.false_eq_true, if_false, if_pos h, hstatus]
  · intro h
    rw [pollLoop, hdone]
    simp only [Bool.false_eq_true, if_false, if_neg (not_le.mpr h)]

/-- Witness for C1's amended theorem: a failing first request with a timeout
not yet elapsed. -/
theorem pollLoop_transport_failure_like_nonterminal_witness :
    ((120 : ℚ) ≤ 0 →
      pollLoop responsesC1 (fun _ => 0) 120 0 1 = some (responsesC1 0, "", 1)) ∧
    ((0 : ℚ) < 120 →
      pollLoop responsesC1 (fun _ => 0) 120 0 2 = pollLoop responsesC1 (fun _ => 0) 120 1 1) :=
  pollLoop_transport_failure_like_nonterminal responsesC1 (fun _ => 0) 120
    "connection refused" 0 0 rfl

/-- One unfolding of the polling loop. -/
theorem pollLoop_succ (responses : Nat → Envelope) (e : Nat → ℚ) (t : ℚ) (i fuel : Nat) :
    pollLoop responses e t i (fuel + 1) =
      if is_done_status (extractStatus (responses i)) then
        some (responses i, extractStatus (responses i), i + 1)
      else if t ≤ e i then some (responses i, extractStatus (responses i), i + 1)
      else pollLoop responses e t (i + 1) fuel := rfl

/-- When no observed status is ever terminal and consecutive elapsed readings
differ by the sleep amount `s`, the loop returns at the first reading that has
reached the timeout: the elapsed time at return lies in `[t, t + s)`. -/
theorem pollLoop_no_done_returns (responses : Nat → Envelope) (e : Nat → ℚ) (t s : ℚ)
    (hdone : ∀ j, is_done_status (extractStatus (responses j)) = false)
    (hstep : ∀ j, e (j + 1) = e j + s) :
    ∀ (fuel i : Nat), t ≤ e i + (fuel : ℚ) * s → e i < t →
      ∃ n : Nat, pollLoop responses e t i (fuel + 1) =
            some (responses n, extractStatus (responses n), n + 1) ∧
          t ≤ e n ∧ e n < t + s := by
  intro fuel
  induction fuel with
  | zero =>
      intro i h1 h2
      exfalso
      simp only [Nat.cast_zero, zero_mul, add_zero] at h1
      linarith
  | succ m ih =>
      intro i h1 h2
      rw [pollLoop_succ, hdone i]
      simp only [Bool.false_eq_true, if_false, if_neg (not_le.mpr h2)]
      by_cases hc : e (i + 1) < t
      · refine ih (i + 1) ?_ hc
        rw [hstep i]
        push_cast at h1 ⊢
        linarith
      · refine ⟨i + 1, ?_, le_of_not_lt hc, by rw [hstep i]; linarith⟩
        rw [pollLoop_succ, hdone (i + 1)]
        simp only [Bool.false_eq_true, if_false, if_pos (le_of_not_lt hc)]

/-- C4: in polling mode with no status ever terminal (`running` throughout), a
nonnegative integer poll interval and a positive integer poll timeout, under
the idealized clock where requests are instantaneous and each sleep takes
exactly `max(0.5, poll_interval)` seconds (so the i-th elapsed reading is
`i * sleepAmount`), the loop returns the latest envelope/status as a normal
result at the first reading that has reached `poll_timeout`; the elapsed time
at return is at most `poll_timeout + poll_interval` (for `poll_timeout = 5`
this is the required return within `5 + poll_interval` seconds). -/
theorem getVideoJobStatus_poll_timeout_bound
    (responses : Nat → Envelope) (poll_interval poll_timeout : Int)
    (hrun : ∀ j, extractStatus (responses j) = "running")
    (hi : 0 ≤ poll_interval) (ht : 0 < poll_timeout) :
    ∃ n : Nat, GetVideoJobStatus.call responses
          (fun i => (i : ℚ) * sleepAmount poll_interval) true (poll_timeout : ℚ)
          (2 * poll_timeout.toNat + 1) =
        some (responses n, "running", n + 1) ∧
      (poll_timeout : ℚ) ≤ (n : ℚ) * sleepAmount poll_interval ∧
      (n : ℚ) * sleepAmount poll_interval ≤ (poll_timeout : ℚ) + (poll_interval : ℚ) := by
  have hs2 : (1/2 : ℚ) ≤ sleepAmount poll_interval := le_max_left _ _
  have hdone : ∀ j, is_done_status (extractStatus (responses j)) = false := by
    intro j
    rw [hrun j]
    rfl
  have hT0 : (0 : ℚ) < (poll_timeout : ℚ) := by exact_mod_cast ht
  have hfuel : (poll_timeout : ℚ) ≤
      ((0 : ℕ) : ℚ) * sleepAmount poll_interval +
        ((2 * poll_timeout.toNat : ℕ) : ℚ) * sleepAmount poll_interval := by
    have h1 : ((poll_timeout.toNat : ℕ) : ℚ) = (poll_timeout : ℚ) := by
      exact_mod_cast Int.toNat_of_nonneg ht.le
    have hcast : ((2 * poll_timeout.toNat : ℕ) : ℚ) = 2 * (poll_timeout : ℚ) := by
      push_cast [h1]
      ring
    rw [hcast]
    push_cast
    nlinarith [hs2, hT0]
  have h0 : ((0 : ℕ) : ℚ) * sleepAmount poll_interval < (poll_timeout : ℚ) := by
    push_cast
    simpa using hT0
  obtain ⟨n, heq, hge, hlt⟩ :=
    pollLoop_no_done_returns responses (fun i => (i : ℚ) * sleepAmount poll_interval)
      (poll_timeout : ℚ) (sleepAmount poll_interval) hdone
      (fun j => by push_cast; ring) (2 * poll_timeout.toNat) 0 hfuel h0
  refine ⟨n, ?_, hge, ?_⟩
  · have hcall : GetVideoJobStatus.call responses
        (fun i => (i : ℚ) * sleepAmount poll_interval) true (poll_timeout : ℚ)
        (2 * poll_timeout.toNat + 1) =
        pollLoop responses (fun i => (i : ℚ) * sleepAmount poll_interval)
          (poll_timeout : ℚ) 0 (2 * poll_timeout.toNat + 1) := rfl
    rw [hcall, heq, hrun n]
  · rcases lt_or_le poll_interval 1 with hlt1 | hge1
    · have hz : poll_interval = 0 := le_antisymm (by omega) hi
      subst hz
      have hsval : sleepAmount 0 = 1/2 := by
        rw [sleepAmount]
        norm_num
      rw [hsval] at hlt hge ⊢
      have h2 : (n : ℚ) < 2 * (poll_timeout : ℚ) + 1 := by linarith
      have h3 : (n : ℤ) < 2 * poll_timeout + 1 := by exact_mod_cast h2
      have h4 : (n : ℤ) ≤ 2 * poll_timeout := by omega
      have h5 : (n : ℚ) ≤ 2 * (poll_timeout : ℚ) := by exact_mod_cast h4
      push_cast
      linarith
    · have hone : (1 : ℚ) ≤ (poll_interval : ℚ) := by exact_mod_cast hge1
      have hsval : sleepAmount poll_interval = (poll_interval : ℚ) := by
        rw [sleepAmount]
        exact max_eq_right (by linarith)
      rw [hsval] at hlt ⊢
      linarith

/-- Witness for C4: a stream that always reports `running`, interval 3,
timeout 5. -/
theorem getVideoJobStatus_poll_timeout_bound_witness :
    ∃ n : Nat, GetVideoJobStatus.call (fun _ => runningEnv)
          (fun i => (i : ℚ) * sleepAmount 3) true ((5 : ℤ) : ℚ)
          (2 * (5 : ℤ).toNat + 1) =
        some (runningEnv, "running", n + 1) ∧
      ((5 : ℤ) : ℚ) ≤ (n : ℚ) * sleepAmount 3 ∧
      (n : ℚ) * sleepAmount 3 ≤ ((5 : ℤ) : ℚ) + ((3 : ℤ) : ℚ) :=
  getVideoJobStatus_poll_timeout_bound (fun _ => runningEnv) 3 5
    (fun _ => rfl) (by decide) (by decide)

/-- C2 counterexample: with the explicit `download_field` strategy, a save
failure after a successful download does NOT fall through to the next
strategy: the call returns the empty saved path, although running the same
input without the explicit field (so that resolution starts at the common
`video_url` probe) produces a successful save — the chain was terminated
early. -/
theorem downloadField_save_failure_ends_chain :
    (DownloadVideoResult.call (.ok getRespC2) dlC2 decC2 saveC2 "fld").2 = "" ∧
    (DownloadVideoResult.call (.ok getRespC2) dlC2 decC2 saveC2 "").2 = "/tmp/sora_ok.mp4" := by
  exact ⟨rfl, rfl⟩

/-- C2 (amended): no exception escapes `DownloadVideoResult.call` (the model
of every decode/save/download attempt is total), and a failing attempt falls
through to the next strategy — EXCEPT in the URL branch of the explicit
`download_field` strategy, where a save failure after a successful download
returns immediately with an empty saved path.  Conjuncts: (1) the early
return of the `download_field` URL branch; (2) a failed URL probe falls
through to the next key; (3) a save failure makes a URL probe report no
match; (4) a failed Base64 probe falls through to the next key; (5) a decode
failure makes a Base64 probe report no match. -/
theorem downloadVideoResult_swallow_and_fallthrough :
    (∀ (getOutcome : Except String HttpResp) (dlOutcome : String → Except String HttpResp)
        (dec : String → Except String (List Nat)) (save : List Nat → Except String String)
        (df v m : String),
      df ≠ "" →
      jget (jsonOrEmpty (SoraAPIClient.get_job getOutcome)) df = some (.str v) →
      pyStartsWith v "http" = true →
      (SoraAPIClient.download_url (dlOutcome v)).ok = true →
      save (rawBytes (SoraAPIClient.download_url (dlOutcome v))) = .error m →
      DownloadVideoResult.call getOutcome dlOutcome dec save df =
        (SoraAPIClient.get_job getOutcome, "")) ∧
    (∀ (dlOutcome : String → Except String HttpResp)
        (save : List Nat → Except String String)
        (resp : Envelope) (j : JsonVal) (k : String) (ks : List String),
      tryDownloadKey dlOutcome save resp j k = none →
      tryDownloadKeys dlOutcome save resp j (k :: ks) =
        tryDownloadKeys dlOutcome save resp j ks) ∧
    (∀ (dlOutcome : String → Except String HttpResp)
        (save : List Nat → Except String String)
        (resp : Envelope) (j : JsonVal) (k v m : String),
      jget j k = some (.str v) →
      pyStartsWith v "http" = true →
      (SoraAPIClient.download_url (dlOutcome v)).ok = true →
      save (rawBytes (SoraAPIClient.download_url (dlOutcome v))) = .error m →
      tryDownloadKey dlOutcome save resp j k = none) ∧
    (∀ (dec : String → Except String (List Nat))
        (save : List Nat → Except String String)
        (resp : Envelope) (j : JsonVal) (k : String) (ks : List String),
      tryB64Key dec save resp j k = none →
      tryB64Keys dec save resp j (k :: ks) = tryB64Keys dec save resp j ks) ∧
    (∀ (dec : String → Except String (List Nat))
        (save : List Nat → Except String String)
        (resp : Envelope) (j : JsonVal) (k v m : String),
      jget j k = some (.str v) →
      v.length > 100 →
      dec v = .error m →
      tryB64Key dec save resp j k = none) := by
  refine ⟨?_, ?_, ?_, ?_, ?_⟩
  · intro getOutcome dlOutcome dec save df v m hdf hv hhttp hok hsave
    have hstep : downloadFieldStep dlOutcome dec save (SoraAPIClient.get_job getOutcome)
        (jsonOrEmpty (SoraAPIClient.get_job getOutcome)) df =
        some (SoraAPIClient.get_job getOutcome, "") := by
      simp only [downloadFieldStep, if_neg hdf, hv, hhttp, if_true, hok, hsave]
    simp only [DownloadVideoResult.call, hstep]
  · intro dlOutcome save resp j k ks h
    simp only [tryDownloadKeys, h]
  · intro dlOutcome save resp j k v m hv hhttp hok hsave
    simp only [tryDownloadKey, hv, hhttp, if_true, hok, hsave]
  · intro dec save resp j k ks h
    simp only [tryB64Keys, h]
  · intro dec save resp j k v m hv hlen hdec
    simp only [tryB64Key, hv, if_pos hlen, hdec]

/-- Witness for C2's amended theorem: the early return of conjunct (1) at the
concrete fixture. -/
theorem downloadVideoResult_swallow_and_fallthrough_witness :
    DownloadVideoResult.call (.ok getRespC2) dlC2 decC2 saveC2 "fld" =
      (SoraAPIClient.get_job (.ok getRespC2), "") :=
  downloadVideoResult_swallow_and_fallthrough.1 (.ok getRespC2) dlC2 decC2 saveC2
    "fld" longUrlC2 "disk full" (by decide) rfl rfl rfl rfl

end SoraSpec
